import Mathlib

/-!
Verification of the Bayesian Gaussian Mixture Model notebook
(`tensorflow_probability/examples/jupyter_notebooks/Bayesian_Gaussian_Mixture_Model.ipynb`).

The notebook is thin glue over the TensorFlow Probability library: it declares
prior distribution objects, defines `joint_log_prob` and a closure over it,
calls `tfp.mcmc.sample_chain`, and then reduces / prints / plots the result.

We embed the notebook's own code shallowly:
* numeric tensors become lists of rationals (the float32 values used by the
  notebook are treated at real-number precision);
* the external library's distribution `log_prob` methods, and its
  `fill_triangular` utility, are abstract function parameters collected in a
  `TFPLib` structure — the notebook does not implement them;
* distribution and bijector *constructor calls* made by the notebook are
  embedded as explicit syntax trees (`DistSpec`, `Bij`), so that claims about
  which objects the notebook builds can be stated;
* the stateful session boilerplate becomes explicit state passing over a
  `World` record, with exceptions modelled by `Except`.
-/

namespace BGMM

/-! ## Numeric helpers mirroring the numpy / tf expressions used by the notebook -/

/-- `np.ones(n)` as a rational vector. -/
def np_ones (n : ℕ) : List ℚ := List.replicate n 1

/-- `np.zeros(n)`. -/
def np_zeros (n : ℕ) : List ℚ := List.replicate n 0

/-- `np.eye(n)`. -/
def np_eye (n : ℕ) : List (List ℚ) :=
  (List.range n).map (fun i => (List.range n).map (fun j => if i = j then (1 : ℚ) else 0))

/-- `tf.ones([k, d])`. -/
def tf_ones2 (k d : ℕ) : List (List ℚ) := List.replicate k (List.replicate d 1)

/-- `tf.ones_like(x)` for a rank-2 tensor. -/
def ones_like (x : List (List ℚ)) : List (List ℚ) := x.map (fun row => row.map (fun _ => (1 : ℚ)))

/-- `tf.fill([n], value)`. -/
def tf_fill (n : ℕ) (value : ℚ) : List ℚ := List.replicate n value

/-! ## The distribution / bijector constructor calls made by the notebook

The notebook only *builds* these objects and hands them to the library; their
densities are library code.  We record the constructor calls as data. -/

/-- Base (non-transformed) library distribution constructors invoked by the notebook. -/
inductive DistSpec where
  | dirichlet (concentration : List ℚ)
  | normal (loc scale : List (List ℚ))
  | independent (base : DistSpec) (reinterpreted_batch_ndims : ℕ)
  | wishartCholesky (df : ℚ) (scale : List (List (List ℚ)))
      (cholesky_input_output_matrices : Bool)
  | categorical (logits : List ℚ)
deriving DecidableEq

/-- Bijector expressions.  The first three constructors are pre-built library
bijectors; `repoImplemented` stands for a change-of-variables transform
implemented in repository code (it carries the forward map such code would
provide).  The notebook is claimed never to build one. -/
inductive Bij where
  | softmaxCentered
  | affine (scale_tril : List (List (List ℚ)))
  | invert (b : Bij)
  | repoImplemented (forward : List ℚ → List ℚ)

/-- A bijector expression is built purely from library primitives
(no repository-implemented change-of-variables node). -/
def Bij.libraryBuilt : Bij → Bool
  | .softmaxCentered => true
  | .affine _ => true
  | .invert b => b.libraryBuilt
  | .repoImplemented _ => false

/-- A `tfd.TransformedDistribution(distribution=…, bijector=…)` constructor call. -/
structure TransformedDist where
  distribution : DistSpec
  bijector : Bij

/-- `class UnconstrainedDirichlet(tfd.TransformedDistribution)`: distribution
over `SoftmaxInverse(Dirichlet)`; base `tfd.Dirichlet(concentration)`, bijector
`tfb.Invert(tfb.SoftmaxCentered())`. -/
def UnconstrainedDirichlet (concentration : List ℚ) : TransformedDist :=
  { distribution := .dirichlet concentration
    bijector := .invert .softmaxCentered }

/-- `class MVNInverseTriL(tfd.TransformedDistribution)`: MVN from loc and
(Cholesky) precision matrix; base
`tfd.Independent(tfd.Normal(loc, scale=tf.ones_like(loc)), reinterpreted_batch_ndims=1)`,
bijector `tfb.Invert(tfb.Affine(scale_tril=precision_tril))`. -/
def MVNInverseTriL (loc : List (List ℚ)) (precision_tril : List (List (List ℚ))) :
    TransformedDist :=
  { distribution := .independent (.normal loc (ones_like loc)) 1
    bijector := .invert (.affine precision_tril) }

/-! ## `make_tril` -/

/-- Entry `(i, j)` of a rank-2 tensor, defaulting to `0` out of range. -/
def entry (m : List (List ℚ)) (i j : ℕ) : ℚ := (m.getD i []).getD j 0

/-- `tf.matrix_diag_part(y)` for a square rank-2 tensor. -/
def matrix_diag_part (y : List (List ℚ)) : List ℚ :=
  (List.range y.length).map (fun i => (y.getD i []).getD i 0)

/-- `tf.linalg.set_diag(y, d)`: `y` with its main diagonal replaced by `d`. -/
def set_diag (y : List (List ℚ)) (d : List ℚ) : List (List ℚ) :=
  (List.range y.length).map (fun i =>
    (List.range (y.getD i []).length).map (fun j =>
      if j = i then d.getD i 0 else (y.getD i []).getD j 0))

/-- `make_tril(x, transform_fn=tf.abs)`: swaps `diag_part(y)` with
`transform_fn(diag_part(y))` where `y = fill_triangular(x)`.
`fill_triangular` is a library utility, passed in abstractly; the notebook's
call sites use the default `transform_fn = tf.abs`, embedded as
`some (fun q => |q|)`. -/
def make_tril (fill_triangular : List ℚ → List (List ℚ))
    (x : List ℚ) (transform_fn : Option (ℚ → ℚ)) : List (List ℚ) :=
  let y := fill_triangular x
  match transform_fn with
  | none => y
  | some f => set_diag y ((matrix_diag_part y).map f)

/-- The default `transform_fn` of `make_tril`, `tf.abs`. -/
def tf_abs : Option (ℚ → ℚ) := some (fun q => |q|)

/-- A concrete stand-in for the library's `fill_triangular` at `d = 2`
(lower-triangular output), used to evaluate `make_tril` on closed inputs. -/
def fill2 : List ℚ → List (List ℚ) :=
  fun v => [[v.getD 2 0, 0], [v.getD 1 0, v.getD 0 0]]

/-! ## Model constants and the three prior declarations (notebook cells 14–15) -/

/-- `dims = 2`. -/
def dims : ℕ := 2

/-- `components = 3`. -/
def components : ℕ := 3

/-- `rv_logits = UnconstrainedDirichlet(concentration=np.ones(components, dtype) / 10.)`. -/
def rv_logits : TransformedDist :=
  UnconstrainedDirichlet ((np_ones components).map (fun a => a / 10))

/-- `rv_loc = tfd.Independent(tfd.Normal(loc=np.stack([-np.ones(dims), np.zeros(dims),
np.ones(dims)]), scale=tf.ones([components, dims])), reinterpreted_batch_ndims=1)`. -/
def rv_loc : DistSpec :=
  .independent
    (.normal
      [(np_ones dims).map (fun a => -a), np_zeros dims, np_ones dims]
      (tf_ones2 components dims))
    1

/-- `rv_precision = tfd.WishartCholesky(df=5, scale=np.stack([np.eye(dims)]*components),
cholesky_input_output_matrices=True)`. -/
def rv_precision : DistSpec :=
  .wishartCholesky 5 (List.replicate components (np_eye dims)) true

/-! ## `joint_log_prob` and its closure -/

/-- `distribution_util.pad(x, axis=-1, front, back, value, count)` on a vector:
prepend / append `count` copies of `value`. -/
def pad (x : List ℚ) (front back : Bool) (value : ℚ) (count : ℕ) : List ℚ :=
  (if front then List.replicate count value else []) ++ x ++
    (if back then List.replicate count value else [])

/-- The `Categorical` mixture logits built inside `joint_log_prob`:
`distribution_util.pad(logits, axis=-1, back=True)` — stay in logits-space by
exploiting the fact that `SoftmaxCentered` appends to back. -/
def categorical_logits (logits : List ℚ) : List ℚ := pad logits false true 0 1

/-- The external library's computational services used by the notebook code.
Each field is a library function the notebook calls but does not implement:
`fill_triangular`, and the `log_prob` methods of the distribution objects.
`msf_log_prob` is `MixtureSameFamily(Categorical(logits), components).log_prob`
applied to a single sample (the library broadcasts it over the sample batch);
the remaining three are the `log_prob` methods of the prior objects, which are
given both the constructor data of the object and the point of evaluation. -/
structure TFPLib where
  fill_triangular : List ℚ → List (List ℚ)
  msf_log_prob : List ℚ → TransformedDist → List ℚ → ℚ
  transformed_log_prob : TransformedDist → List ℚ → ℚ
  independent_log_prob : DistSpec → List (List ℚ) → List ℚ
  wishart_log_prob : DistSpec → List (List (List ℚ)) → List ℚ

/-- `joint_log_prob(observations, logits, loc, flat_chol_precision)`:
BGMM with priors loc=Normal, precision=Inverse-Wishart, mix=Dirichlet.
Builds `chol_precision = make_tril(flat_chol_precision)` (the batched
`fill_triangular` maps over the component axis), constructs
`rv_observations = MixtureSameFamily(Categorical(pad(logits, back=True)),
MVNInverseTriL(loc, chol_precision))`, then concatenates the four log-prob
parts along the last axis and sums. -/
def joint_log_prob (lib : TFPLib) (observations : List (List ℚ)) (logits : List ℚ)
    (loc : List (List ℚ)) (flat_chol_precision : List (List ℚ)) : ℚ :=
  let chol_precision :=
    flat_chol_precision.map (fun row => make_tril lib.fill_triangular row tf_abs)
  let rv_observations := fun x =>
    lib.msf_log_prob (categorical_logits logits) (MVNInverseTriL loc chol_precision) x
  let log_prob_parts : List (List ℚ) :=
    [ observations.map rv_observations,
      [lib.transformed_log_prob rv_logits logits],
      lib.independent_log_prob rv_loc loc,
      lib.wishart_log_prob rv_precision chol_precision ]
  (log_prob_parts.flatten).sum

/-- `unnormalized_posterior_log_prob = lambda *args: joint_log_prob(observations, *args)`:
closes over the fixed generated `observations` and forwards the three
sampled-state arguments. -/
def unnormalized_posterior_log_prob (lib : TFPLib) (observations : List (List ℚ)) :
    List ℚ → List (List ℚ) → List (List ℚ) → ℚ :=
  fun logits loc flat_chol_precision =>
    joint_log_prob lib observations logits loc flat_chol_precision

/-- The `logits` entry of `initial_state`:
`tf.fill([components-1], value=np.array(0, dtype))`. -/
def initial_state_logits : List ℚ := tf_fill (components - 1) 0

/-! ## Session-configuration boilerplate (notebook cell 7)

`tf.ConfigProto` is embedded keeping only the fields the notebook touches; a
freshly constructed proto has every such field at its TensorFlow default. -/

/-- `tf.OptimizerOptions` global JIT levels. -/
inductive GlobalJitLevel where
  | DEFAULT
  | OFF
  | ON_1
  | ON_2
deriving DecidableEq

/-- The `tf.ConfigProto` fields touched by `session_options`. -/
structure ConfigProto where
  log_device_placement : Bool
  gpu_allow_growth : Bool
  global_jit_level : GlobalJitLevel
deriving DecidableEq

/-- `tf.ConfigProto()`: a fresh config with TensorFlow's defaults. -/
def tf_ConfigProto : ConfigProto :=
  { log_device_placement := false
    gpu_allow_growth := false
    global_jit_level := .DEFAULT }

/-- `session_options(enable_gpu_ram_resizing=True, enable_xla=True)`:
convenience function which sets common `tf.Session` options.  The Python
defaults of both flags are `True`. -/
def session_options (enable_gpu_ram_resizing enable_xla : Bool) : ConfigProto :=
  let config := tf_ConfigProto
  let config := { config with log_device_placement := true }
  let config :=
    if enable_gpu_ram_resizing then { config with gpu_allow_growth := true } else config
  let config :=
    if enable_xla then { config with global_jit_level := .ON_1 } else config
  config

/-- A TensorFlow session object.  `close_raises` marks a session whose
`close()` call would raise an exception. -/
structure Session where
  config : ConfigProto
  closed : Bool
  close_raises : Bool
deriving DecidableEq

/-- `Session.close()`: fails when the session is in a raising state. -/
def Session.close (s : Session) : Except String Session :=
  if s.close_raises then .error "close failed" else .ok { s with closed := true }

/-- The global state `reset_sess` manipulates: the default graph (tracked by a
reset counter) and the global `sess` binding (`none` when the name is unbound,
in which case touching it raises a `NameError`). -/
structure World where
  graph_resets : ℕ
  sess : Option Session
deriving DecidableEq

/-- The `try: sess.close() except: pass` block of `reset_sess`: any exception —
the global `sess` being unbound, or `close()` failing — is swallowed. -/
def close_old_session (w : World) : World :=
  match w.sess with
  | none => w
  | some s =>
    match s.close with
    | .error _ => w
    | .ok s1 => { w with sess := some s1 }

/-- `reset_sess(config=None)`: convenience function to create the TF graph and
session, or reset them.  When `config` is `None` it is replaced by
`session_options()` (both flags at their default `True`); the default graph is
reset, the old global session is closed with exceptions swallowed, and the
global `sess` is rebound to a fresh `tf.InteractiveSession(config=config)`. -/
def reset_sess (config : Option ConfigProto) (w : World) : Except String World :=
  let config :=
    match config with
    | none => session_options true true
    | some c => c
  let w := { w with graph_resets := w.graph_resets + 1 }
  let w := close_old_session w
  .ok { w with sess := some { config := config, closed := false, close_raises := false } }

/-! ## The top-level pipeline (notebook cells in execution order)

The notebook is a linear script; we record its steps and, for each step, the
earlier steps whose results it consumes (read off the cell sources). -/

/-- MCMC transition kernels the external library offers at the call site. -/
inductive KernelKind where
  | hamiltonianMonteCarlo
  | randomWalkMetropolis
  | other
deriving DecidableEq

/-- The notebook's top-level steps. -/
inductive Step where
  | importLibraries
  | defineSessionHelpers
  | resetSession
  | defineDistClasses
  | defineConstants
  | definePriors
  | printPriors
  | defineJointLogProb
  | generateData
  | defineClosure
  | defineInitialState
  | sampleChain (kernel : KernelKind)
  | reduceResults
  | runSession
  | printResults
  | plotResults
deriving DecidableEq

/-- The notebook's cells in order: session boilerplate, model classes,
constants, priors, `joint_log_prob`, data generation, the closure and initial
state, `tfp.mcmc.sample_chain` with a `HamiltonianMonteCarlo` kernel, then
reductions, `sess.run`, printing and plotting. -/
def script : List Step :=
  [ .importLibraries,
    .defineSessionHelpers,
    .resetSession,
    .defineDistClasses,
    .defineConstants,
    .definePriors,
    .printPriors,
    .defineJointLogProb,
    .generateData,
    .defineClosure,
    .defineInitialState,
    .sampleChain .hamiltonianMonteCarlo,
    .reduceResults,
    .runSession,
    .printResults,
    .plotResults ]

/-- The earlier steps each step reads from (its data dependencies, as visible
in the cell sources). -/
def deps : Step → List Step
  | .importLibraries => []
  | .defineSessionHelpers => [.importLibraries]
  | .resetSession => [.defineSessionHelpers]
  | .defineDistClasses => [.importLibraries]
  | .defineConstants => []
  | .definePriors => [.defineDistClasses, .defineConstants]
  | .printPriors => [.definePriors]
  | .defineJointLogProb => [.defineDistClasses, .definePriors]
  | .generateData => [.defineConstants]
  | .defineClosure => [.defineJointLogProb, .generateData]
  | .defineInitialState => [.defineConstants]
  | .sampleChain _ => [.defineClosure, .defineInitialState]
  | .reduceResults => [.sampleChain .hamiltonianMonteCarlo]
  | .runSession => [.resetSession, .reduceResults]
  | .printResults => [.runSession]
  | .plotResults => [.runSession]

/-- Position of a step in the script (`script.length` when absent). -/
def stepIdx (s : Step) : ℕ := script.indexOf s

/-- Recognises the chain-sampling step, whatever its kernel. -/
def isSampleChain : Step → Bool
  | .sampleChain _ => true
  | _ => false

/-- A step never reads the result of a step that comes later (or of itself):
the pipeline has no feedback edge. -/
def noFeedback : Prop :=
  ∀ s ∈ script, ∀ d ∈ deps s, stepIdx d < stepIdx s

instance : Decidable noFeedback := by
  unfold noFeedback
  infer_instance

/-! ## The notebook's own code is straight-line (loop-free)

A small imperative statement language with sequencing, conditionals,
`try/except` and (for contrast) `while` loops; external library calls are
single `atom` steps, matching the claim's proviso that the library's calls
terminate.  `Terminates env s` is the big-step termination judgement when every
condition evaluates via `env`; a `while` whose condition holds forever admits
no derivation, so the judgement is not vacuous. -/

/-- Python statement shapes occurring in (or absent from) the notebook. -/
inductive Stmt where
  | skip
  | atom (source : String)
  | seq (a b : Stmt)
  | ite (cond : String) (thn els : Stmt)
  | tryE (body handler : Stmt)
  | whileLoop (cond : String) (body : Stmt)

/-- No `while` node anywhere in the statement.  (Python `for` loops would also
be encoded as `whileLoop`; the notebook has neither.) -/
def loopFree : Stmt → Bool
  | .skip => true
  | .atom _ => true
  | .seq a b => loopFree a && loopFree b
  | .ite _ t e => loopFree t && loopFree e
  | .tryE t h => loopFree t && loopFree h
  | .whileLoop _ _ => false

/-- Big-step termination under a fixed valuation of conditions.  A `try` block
terminates when its body does; if the body raises, the handler must also
terminate (we require both, the conservative reading). -/
inductive Terminates (env : String → Bool) : Stmt → Prop where
  | skip : Terminates env .skip
  | atom (s : String) : Terminates env (.atom s)
  | seq {a b : Stmt} : Terminates env a → Terminates env b → Terminates env (.seq a b)
  | iteT {c : String} {t e : Stmt} :
      env c = true → Terminates env t → Terminates env (.ite c t e)
  | iteF {c : String} {t e : Stmt} :
      env c = false → Terminates env e → Terminates env (.ite c t e)
  | tryE {t h : Stmt} :
      Terminates env t → Terminates env h → Terminates env (.tryE t h)
  | whileF {c : String} {b : Stmt} :
      env c = false → Terminates env (.whileLoop c b)
  | whileT {c : String} {b : Stmt} :
      env c = true → Terminates env b → Terminates env (.whileLoop c b) →
      Terminates env (.whileLoop c b)

/-- Body of `session_options`. -/
def session_options_body : Stmt :=
  .seq (.atom ("config = tf.ConfigProto()"))
    (.seq (.atom ("config.log_device_placement = True"))
      (.seq (.ite ("enable_gpu_ram_resizing")
              (.atom ("config.gpu_options.allow_growth = True")) .skip)
        (.seq (.ite ("enable_xla")
                (.atom ("config.graph_options.optimizer_options.global_jit_level = ON_1"))
                .skip)
          (.atom ("return config")))))

/-- Body of `reset_sess`. -/
def reset_sess_body : Stmt :=
  .seq (.ite ("config is None") (.atom ("config = session_options()")) .skip)
    (.seq (.atom ("tf.reset_default_graph()"))
      (.seq (.tryE (.atom ("sess.close()")) .skip)
        (.atom ("sess = tf.InteractiveSession(config=config)"))))

/-- Body of `make_tril`. -/
def make_tril_body : Stmt :=
  .seq (.atom ("y = tfd.fill_triangular(x)"))
    (.seq (.ite ("transform_fn is None") (.atom ("return y")) .skip)
      (.seq (.atom ("new_diag = transform_fn(tf.matrix_diag_part(y))"))
        (.atom ("return tf.linalg.set_diag(y, new_diag)"))))

/-- Body of `joint_log_prob`. -/
def joint_log_prob_body : Stmt :=
  .seq (.atom ("chol_precision = make_tril(flat_chol_precision)"))
    (.seq (.atom ("rv_observations = tfd.MixtureSameFamily(...)"))
      (.seq (.atom ("log_prob_parts = [...]"))
        (.seq (.atom ("sum_log_prob = tf.reduce_sum(tf.concat(log_prob_parts, axis=-1), axis=-1)"))
          (.atom ("return sum_log_prob")))))

/-- Body of the `unnormalized_posterior_log_prob` lambda. -/
def closure_body : Stmt :=
  .atom ("joint_log_prob(observations, *args)")

/-- The top-level script: every cell is a straight-line sequence of
assignments, definitions and library calls. -/
def notebook_script : Stmt :=
  .seq (.atom ("imports"))
    (.seq (.atom ("def session_options / def reset_sess"))
      (.seq (.atom ("reset_sess()"))
        (.seq (.atom ("class UnconstrainedDirichlet / class MVNInverseTriL / def make_tril"))
          (.seq (.atom ("dtype, dims, components"))
            (.seq (.atom ("rv_logits, rv_loc, rv_precision"))
              (.seq (.atom ("print priors"))
                (.seq (.atom ("def joint_log_prob"))
                  (.seq (.atom ("generate observations"))
                    (.seq (.atom ("unnormalized_posterior_log_prob, initial_state"))
                      (.seq (.atom ("tfp.mcmc.sample_chain"))
                        (.seq (.atom ("reductions"))
                          (.seq (.atom ("sess.run"))
                            (.seq (.atom ("print results"))
                              (.atom ("sns.kdeplot x3")))))))))))))))

/-! ## Helper lemmas -/

theorem getD_range_map {α : Type} (n : ℕ) (f : ℕ → α) (i : ℕ) (dflt : α) :
    ((List.range n).map f).getD i dflt = if i < n then f i else dflt := by
  by_cases h : i < n
  · simp [List.getD, List.getElem?_map, List.getElem?_range, h]
  · simp [List.getD, List.getElem?_map, h, List.getElem?_eq_none, List.length_range,
      Nat.le_of_not_lt]

theorem getD_mem {α : Type} (l : List α) (dflt : α) (i : ℕ) (h : i < l.length) :
    l.getD i dflt ∈ l := by
  rw [List.getD_eq_getElem l dflt h]
  exact List.getElem_mem h

theorem length_set_diag (y : List (List ℚ)) (v : List ℚ) :
    (set_diag y v).length = y.length := by
  simp [set_diag]

theorem entry_set_diag (y : List (List ℚ)) (v : List ℚ) (i j : ℕ) :
    entry (set_diag y v) i j =
      if i < y.length then
        (if j < (y.getD i []).length then
          (if j = i then v.getD i 0 else entry y i j) else 0)
      else 0 := by
  unfold entry set_diag
  simp only [getD_range_map]
  by_cases hi : i < y.length
  · simp only [hi, if_true, getD_range_map]
  · simp only [hi, if_false]
    rfl

theorem getD_diag_map (y : List (List ℚ)) (f : ℚ → ℚ) (i : ℕ) (hi : i < y.length) :
    ((matrix_diag_part y).map f).getD i 0 = f (entry y i i) := by
  unfold matrix_diag_part
  rw [List.map_map, getD_range_map]
  simp [hi, entry]

theorem loopFree_terminates (s : Stmt) (h : loopFree s = true) (env : String → Bool) :
    Terminates env s := by
  induction s with
  | skip => exact .skip
  | atom a => exact .atom a
  | seq a b iha ihb =>
    simp only [loopFree, Bool.and_eq_true] at h
    exact .seq (iha h.1) (ihb h.2)
  | ite c t e iht ihe =>
    simp only [loopFree, Bool.and_eq_true] at h
    cases hc : env c with
    | false => exact .iteF hc (ihe h.2)
    | true => exact .iteT hc (iht h.1)
  | tryE t hnd iht ihh =>
    simp only [loopFree, Bool.and_eq_true] at h
    exact .tryE (iht h.1) (ihh h.2)
  | whileLoop c b ih =>
    simp [loopFree] at h

/-! ## Claim theorems -/

/-- Claim C1: `joint_log_prob(observations, logits, loc, flat_chol_precision)` is
composed from pre-built distribution objects — its result equals the sum of
exactly four log-density parts (the MixtureSameFamily log_prob of the
observations, the UnconstrainedDirichlet prior log_prob of the logits, the
Independent-Normal prior log_prob of loc, and the WishartCholesky prior
log_prob of `make_tril(flat_chol_precision)`), summed over the concatenated
last axis, the logits term contributing a single scalar expanded by one
trailing axis. -/
theorem joint_log_prob_decomposition (lib : TFPLib) (observations : List (List ℚ))
    (logits : List ℚ) (loc flat_chol_precision : List (List ℚ)) :
    joint_log_prob lib observations logits loc flat_chol_precision =
      (observations.map (fun x =>
          lib.msf_log_prob (categorical_logits logits)
            (MVNInverseTriL loc (flat_chol_precision.map
               (fun row => make_tril lib.fill_triangular row tf_abs))) x)).sum +
      lib.transformed_log_prob rv_logits logits +
      (lib.independent_log_prob rv_loc loc).sum +
      (lib.wishart_log_prob rv_precision (flat_chol_precision.map
         (fun row => make_tril lib.fill_triangular row tf_abs))).sum := by
  simp only [joint_log_prob, List.flatten, List.sum_append, List.sum_cons, List.sum_nil]
  ring

/-- Claim C2: the closure pins down only the observations — for every tuple of
sampled-state arguments, `unnormalized_posterior_log_prob logits loc
flat_chol_precision` equals `joint_log_prob observations logits loc
flat_chol_precision` with `observations` the fixed data it closed over, and it
takes exactly those three arguments (the hyper-parameters live inside the
prior objects referenced by `joint_log_prob`). -/
theorem unnormalized_posterior_log_prob_spec (lib : TFPLib)
    (observations : List (List ℚ)) (logits : List ℚ)
    (loc flat_chol_precision : List (List ℚ)) :
    unnormalized_posterior_log_prob lib observations logits loc flat_chol_precision =
      joint_log_prob lib observations logits loc flat_chol_precision := rfl

/-- Claim C3: the notebook is a straight-line pipeline in the fixed order —
priors are defined, then the joint log-density closure, then the library's
chain-sampling routine with a HamiltonianMonteCarlo kernel is called on that
closure, and only afterwards come the reductions, printing and plotting; the
only sampling call uses the HMC kernel, and no step reads the result of a
later step (`noFeedback`). -/
theorem pipeline_order :
    stepIdx .definePriors < stepIdx .defineJointLogProb ∧
    stepIdx .defineJointLogProb < stepIdx .defineClosure ∧
    stepIdx .defineClosure < stepIdx (.sampleChain .hamiltonianMonteCarlo) ∧
    stepIdx (.sampleChain .hamiltonianMonteCarlo) < stepIdx .reduceResults ∧
    stepIdx .reduceResults < stepIdx .printResults ∧
    stepIdx .reduceResults < stepIdx .plotResults ∧
    script.filter isSampleChain = [.sampleChain .hamiltonianMonteCarlo] ∧
    noFeedback := by
  decide

/-- Claim C4: the change-of-variables machinery is entirely the library's —
the bijector of every `TransformedDistribution` the notebook constructs is
built purely from pre-built library bijectors (`Invert(SoftmaxCentered())` for
`UnconstrainedDirichlet`, `Invert(Affine(scale_tril=…))` for `MVNInverseTriL`),
with no repository-implemented transform node. -/
theorem bijectors_library_built :
    rv_logits.bijector = .invert .softmaxCentered ∧
    rv_logits.bijector.libraryBuilt = true ∧
    ∀ (loc : List (List ℚ)) (precision_tril : List (List (List ℚ))),
      (MVNInverseTriL loc precision_tril).bijector = .invert (.affine precision_tril) ∧
      (MVNInverseTriL loc precision_tril).bijector.libraryBuilt = true :=
  ⟨rfl, rfl, fun _ _ => ⟨rfl, rfl⟩⟩

/-- Claim C5: the model declares exactly three priors with fixed parameters —
`rv_logits` an UnconstrainedDirichlet with concentration `[1/10, 1/10, 1/10]`;
`rv_loc` an Independent Normal over 3 components of dimension 2 with component
locations `(-1,-1), (0,0), (1,1)` and unit scale; `rv_precision` a
WishartCholesky with 5 degrees of freedom, an identity 2×2 Cholesky scale for
each of the 3 components, and `cholesky_input_output_matrices = True`. -/
theorem priors_spec :
    rv_logits.distribution =
      .dirichlet [1/10, 1/10, 1/10] ∧
    rv_loc =
      .independent (.normal [[-1, -1], [0, 0], [1, 1]] [[1, 1], [1, 1], [1, 1]]) 1 ∧
    rv_precision =
      .wishartCholesky 5 [[[1, 0], [0, 1]], [[1, 0], [0, 1]], [[1, 0], [0, 1]]] true := by
  refine ⟨?_, ?_, ?_⟩
  · simp [rv_logits, UnconstrainedDirichlet, np_ones, List.replicate, components]
  · simp [rv_loc, np_ones, np_zeros, tf_ones2, List.replicate, components, dims]
  · simp [rv_precision, np_eye, List.replicate, List.range_succ, components, dims]

/-- Claim C6: `reset_sess(config)` with `config = None` behaves identically to
`reset_sess(session_options())`; on every starting state it resets the default
graph, rebinds the global `sess` to a fresh InteractiveSession carrying the
given config, and returns successfully — it never raises, whether the previous
global session is absent or its `close()` fails. -/
theorem reset_sess_spec (w : World) :
    reset_sess none w = reset_sess (some (session_options true true)) w ∧
    ∀ cfg : ConfigProto,
      reset_sess (some cfg) w =
        .ok { graph_resets := w.graph_resets + 1,
              sess := some { config := cfg, closed := false, close_raises := false } } := by
  rcases w with ⟨g, s⟩
  refine ⟨rfl, fun cfg => ?_⟩
  cases s with
  | none => rfl
  | some s0 =>
    by_cases h : s0.close_raises <;>
      simp [reset_sess, close_old_session, Session.close, h]

/-- Claim C7: the notebook's own code is straight-line — the bodies of
`session_options`, `reset_sess`, `make_tril`, `joint_log_prob`, the closure,
and the top-level script contain no loop construct, and therefore each
terminates under every valuation of its conditions, the external library calls
being single terminating steps. -/
theorem straight_line_termination :
    loopFree session_options_body = true ∧
    loopFree reset_sess_body = true ∧
    loopFree make_tril_body = true ∧
    loopFree joint_log_prob_body = true ∧
    loopFree closure_body = true ∧
    loopFree notebook_script = true ∧
    ∀ env : String → Bool,
      Terminates env session_options_body ∧
      Terminates env reset_sess_body ∧
      Terminates env make_tril_body ∧
      Terminates env joint_log_prob_body ∧
      Terminates env closure_body ∧
      Terminates env notebook_script :=
  ⟨rfl, rfl, rfl, rfl, rfl, rfl, fun env =>
    ⟨loopFree_terminates session_options_body rfl env,
     loopFree_terminates reset_sess_body rfl env,
     loopFree_terminates make_tril_body rfl env,
     loopFree_terminates joint_log_prob_body rfl env,
     loopFree_terminates closure_body rfl env,
     loopFree_terminates notebook_script rfl env⟩⟩

/-- Claim C8: for a flat vector `x` of length `d*(d+1)/2`, and the library's
`fill_triangular` producing a `d × d` lower-triangular matrix on it,
`make_tril(x)` with the default `transform_fn = tf.abs` returns a `d × d`
lower-triangular matrix whose strictly-lower part equals that of
`fill_triangular(x)` and whose diagonal entries are the absolute values of
`fill_triangular(x)`'s diagonal entries — hence non-negative; with
`transform_fn = None` it returns `fill_triangular(x)` unchanged. -/
theorem make_tril_spec (fill : List ℚ → List (List ℚ)) (x : List ℚ) (d : ℕ)
    (_hx : x.length = d * (d + 1) / 2)
    (hrows : (fill x).length = d)
    (hcols : ∀ row ∈ fill x, row.length = d)
    (hlow : ∀ i, i < d → ∀ j, j < d → i < j → entry (fill x) i j = 0) :
    (make_tril fill x tf_abs).length = d ∧
    (∀ row ∈ make_tril fill x tf_abs, row.length = d) ∧
    (∀ i, i < d → ∀ j, j < d → i < j → entry (make_tril fill x tf_abs) i j = 0) ∧
    (∀ i, i < d → ∀ j, j < i →
      entry (make_tril fill x tf_abs) i j = entry (fill x) i j) ∧
    (∀ i, i < d →
      entry (make_tril fill x tf_abs) i i = |entry (fill x) i i| ∧
      0 ≤ entry (make_tril fill x tf_abs) i i) ∧
    make_tril fill x none = fill x := by
  have hmt : make_tril fill x tf_abs =
      set_diag (fill x) ((matrix_diag_part (fill x)).map (fun q => |q|)) := rfl
  have hcol_i : ∀ i, i < d → ((fill x).getD i []).length = d := by
    intro i hi
    exact hcols _ (getD_mem _ _ i (by rw [hrows]; exact hi))
  refine ⟨?_, ?_, ?_, ?_, ?_, rfl⟩
  · rw [hmt, length_set_diag, hrows]
  · intro row hrow
    rw [hmt] at hrow
    unfold set_diag at hrow
    rcases List.mem_map.1 hrow with ⟨i, hi_mem, hrow_eq⟩
    rw [List.mem_range] at hi_mem
    rw [← hrow_eq]
    simp only [List.length_map, List.length_range]
    exact hcol_i i (by rw [← hrows]; exact hi_mem)
  · intro i hi j hj hij
    have h1 : i < (fill x).length := by rw [hrows]; exact hi
    have h2 : j < ((fill x).getD i []).length := by rw [hcol_i i hi]; exact hj
    have h3 : j ≠ i := Nat.ne_of_gt hij
    rw [hmt, entry_set_diag, if_pos h1, if_pos h2, if_neg h3]
    exact hlow i hi j hj hij
  · intro i hi j hji
    have hj : j < d := lt_trans hji hi
    have h1 : i < (fill x).length := by rw [hrows]; exact hi
    have h2 : j < ((fill x).getD i []).length := by rw [hcol_i i hi]; exact hj
    have h3 : j ≠ i := Nat.ne_of_lt hji
    rw [hmt, entry_set_diag, if_pos h1, if_pos h2, if_neg h3]
  · intro i hi
    have h1 : i < (fill x).length := by rw [hrows]; exact hi
    have h2 : i < ((fill x).getD i []).length := by rw [hcol_i i hi]; exact hi
    have habs : entry (make_tril fill x tf_abs) i i = |entry (fill x) i i| := by
      rw [hmt, entry_set_diag, if_pos h1, if_pos h2, if_pos rfl, getD_diag_map _ _ _ h1]
    exact ⟨habs, habs ▸ abs_nonneg _⟩

/-- Witness for C8: `make_tril` evaluated with a concrete lower-triangular
`fill_triangular` at `d = 2` on `x = [1, 2, -3]`. -/
theorem make_tril_spec_witness :
    (make_tril fill2 [1, 2, -3] tf_abs).length = 2 ∧
    (∀ row ∈ make_tril fill2 [1, 2, -3] tf_abs, row.length = 2) ∧
    (∀ i, i < 2 → ∀ j, j < 2 → i < j →
      entry (make_tril fill2 [1, 2, -3] tf_abs) i j = 0) ∧
    (∀ i, i < 2 → ∀ j, j < i →
      entry (make_tril fill2 [1, 2, -3] tf_abs) i j = entry (fill2 [1, 2, -3]) i j) ∧
    (∀ i, i < 2 →
      entry (make_tril fill2 [1, 2, -3] tf_abs) i i = |entry (fill2 [1, 2, -3]) i i| ∧
      0 ≤ entry (make_tril fill2 [1, 2, -3] tf_abs) i i) ∧
    make_tril fill2 [1, 2, -3] none = fill2 [1, 2, -3] :=
  make_tril_spec fill2 [1, 2, -3] 2 (by decide) (by decide) (by decide) (by decide)

/-- Claim C9: the sampled logits state uses the (K−1)-dimensional
SoftmaxCentered convention for K = `components` mixture components — the
initial state's logits entry has length `components − 1`, and the Categorical
mixture logits built inside `joint_log_prob` append exactly one zero at the
back of the input logits, giving `components` logits on the initial state's
shape. -/
theorem logits_convention :
    initial_state_logits.length = components - 1 ∧
    (∀ logits : List ℚ, categorical_logits logits = logits ++ [0]) ∧
    (∀ logits : List ℚ, (categorical_logits logits).length = logits.length + 1) ∧
    (categorical_logits initial_state_logits).length = components := by
  refine ⟨rfl, fun l => ?_, fun l => ?_, rfl⟩ <;>
    simp [categorical_logits, pad]

/-- Claim C10: `session_options` is a deterministic function of its two boolean
flags; the returned config always has `log_device_placement = True`, has
`gpu_options.allow_growth = True` iff `enable_gpu_ram_resizing`, and has the
XLA `global_jit_level` at `ON_1` iff `enable_xla`. -/
theorem session_options_spec :
    ∀ g x : Bool,
      (session_options g x).log_device_placement = true ∧
      ((session_options g x).gpu_allow_growth = true ↔ g = true) ∧
      ((session_options g x).global_jit_level = .ON_1 ↔ x = true) := by
  decide

end BGMM
